import Mathlib

/-!
Verification development for the VideoKit native media pipeline
(`videokit-ai/videokit`).  The repository ships its native layer as C
headers (`VKTStatus.h`, `VKTMediaRecorder.h`, `VKTMediaReader.h`,
`VKTMediaAsset.h`, `VKTMediaDevice.h`, `VKTPixelBuffer.h`); the
behaviour declared there and in the accompanying specification is
embedded shallowly below, and the specified properties are proved
against the embedding.
-/

/-- Status codes of the native boundary, from `VKTStatus.h`
(`VKT_OK = 0`, `VKT_ERROR_INVALID_ARGUMENT = 1`,
`VKT_ERROR_INVALID_OPERATION = 2`, `VKT_ERROR_NOT_IMPLEMENTED = 3`,
`VKT_ERROR_INVALID_SESSION = 101`, `VKT_ERROR_INVALID_PLAN = 104`). -/
inductive VKTStatus where
  | ok
  | invalidArgument
  | invalidOperation
  | notImplemented
  | invalidSession
  | invalidPlan
deriving DecidableEq, Repr

/-- Media formats of `VKTMediaFormat` in `VKTMediaRecorder.h`. -/
inductive VKTMediaFormat where
  | mp4
  | hevc
  | webm
  | gif
  | jpeg
  | wav
  | av1
  | proRes4444
deriving DecidableEq, Repr

/-- Whether a format records video frames, from the `VKTMediaFormat`
documentation in `VKTMediaRecorder.h`: every format supports video
except WAV ("This format only supports recording audio"). -/
def formatSupportsVideo : VKTMediaFormat → Bool
  | .wav => false
  | _ => true

/-- Whether a format records audio frames, from the `VKTMediaFormat`
documentation in `VKTMediaRecorder.h`: GIF and JPEG "only support
recording video frames"; every other format supports audio. -/
def formatSupportsAudio : VKTMediaFormat → Bool
  | .gif => false
  | .jpeg => false
  | _ => true

/-- Lifecycle phase of a recorder, from the specification's state
machine `Constructed → Writing → Finishing → Closed`: a constructed
recorder is `writing`; once `VKTMediaRecorderFinishWriting` runs the
recorder is released and unusable, collapsed here into `finished`. -/
inductive RecorderPhase where
  | writing
  | finished
deriving DecidableEq, Repr

/-- Modelled from the spec: the media recorder state behind the opaque
`VKTMediaRecorder*` handle of `VKTMediaRecorder.h` (the implementation
is not part of the repository's sources).  It carries the construction
parameters, the last appended timestamp of each track (video and audio
tracks are ordered independently), and the lifecycle phase. -/
structure MediaRecorder where
  format : VKTMediaFormat
  width : Int
  height : Int
  sampleRate : Int
  channelCount : Int
  lastVideoTs : Option Int
  lastAudioTs : Option Int
  phase : RecorderPhase
deriving DecidableEq, Repr

/-- Pixel buffer formats of `VKTPixelFormat` in `VKTPixelBuffer.h`. -/
inductive VKTPixelFormat where
  | unknown
  | ycbcr420
  | rgba8888
  | bgra8888
deriving DecidableEq, Repr

/-- Whether a pixel format is planar: `VKT_PIXEL_FORMAT_YCbCr420` is
the "YUV semi-planar format"; RGBA8888 and BGRA8888 are interleaved
(`VKTPixelBuffer.h`). -/
def isPlanarFormat : VKTPixelFormat → Bool
  | .ycbcr420 => true
  | _ => false

/-- Modelled from the spec: the pixel buffer behind the opaque
`VKTPixelBuffer*` handle of `VKTPixelBuffer.h` (the implementation is
not part of the repository's sources).  `pix x y` is the logical pixel
value at column `x`, row `y` (meaningful for `x < width`,
`y < height`); `planeCount` is the number of backing planes, `0` for
buffers built through the interleaved constructor. -/
structure VKTPixelBuffer where
  width : Nat
  height : Nat
  format : VKTPixelFormat
  mirrored : Bool
  timestamp : Int
  planeCount : Nat
  pix : Nat → Nat → Nat

/-- Modelled from the spec: the audio buffer behind the opaque
`VKTAudioBuffer*` handle of `VKTAudioBuffer.h` (the implementation is
not part of the repository's sources): 32-bit float linear PCM samples
interleaved by channel, with a nanosecond timestamp. -/
structure VKTAudioBuffer where
  sampleRate : Int
  channelCount : Int
  sampleCount : Int
  samples : List Float
  timestamp : Int

/-- Whether a timestamp is strictly greater than the last appended
timestamp of a track; with no previous append every timestamp
qualifies (spec §4.4: "each call's buffer timestamp must be strictly
greater than the last appended timestamp of that track"). -/
def afterLast (ts : Int) : Option Int → Bool
  | none => true
  | some t => t < ts

/-- Modelled from the spec: `VKTMediaRecorderAppendPixelBuffer` of
`VKTMediaRecorder.h` (the implementation is not part of the
repository's sources).  Valid only in the `writing` phase and for
formats that record video; a buffer whose timestamp is not strictly
greater than the last appended video timestamp is rejected with
`VKT_ERROR_INVALID_OPERATION` and leaves the recorder unchanged
(spec §4.4 mandates rejection to preserve muxer correctness). -/
def VKTMediaRecorderAppendPixelBuffer (recorder : MediaRecorder)
    (pixelBuffer : VKTPixelBuffer) : VKTStatus × MediaRecorder :=
  if recorder.phase ≠ RecorderPhase.writing then
    (.invalidOperation, recorder)
  else if ¬ formatSupportsVideo recorder.format then
    (.invalidOperation, recorder)
  else if afterLast pixelBuffer.timestamp recorder.lastVideoTs then
    (.ok, { recorder with lastVideoTs := some pixelBuffer.timestamp })
  else
    (.invalidOperation, recorder)

/-- Modelled from the spec: `VKTMediaRecorderAppendAudioBuffer` of
`VKTMediaRecorder.h` (the implementation is not part of the
repository's sources).  Mirror image of the pixel-buffer append on the
independently ordered audio track. -/
def VKTMediaRecorderAppendAudioBuffer (recorder : MediaRecorder)
    (audioBuffer : VKTAudioBuffer) : VKTStatus × MediaRecorder :=
  if recorder.phase ≠ RecorderPhase.writing then
    (.invalidOperation, recorder)
  else if ¬ formatSupportsAudio recorder.format then
    (.invalidOperation, recorder)
  else if afterLast audioBuffer.timestamp recorder.lastAudioTs then
    (.ok, { recorder with lastAudioTs := some audioBuffer.timestamp })
  else
    (.invalidOperation, recorder)

/-- Modelled from the spec: `VKTMediaRecorderFinishWriting` of
`VKTMediaRecorder.h` (the implementation is not part of the
repository's sources).  `outcome` abstracts whether finalizing the
container succeeds; the returned list records the completion-handler
invocations this call performs, each carrying the output path on
success and `NULL` (here `none`) on failure.  The recorder is released
as part of the transition: its phase becomes `finished`, in which
every further operation fails with `VKT_ERROR_INVALID_OPERATION`. -/
def VKTMediaRecorderFinishWriting (recorder : MediaRecorder)
    (outcome : Bool) (outputPath : String) :
    VKTStatus × MediaRecorder × List (Option String) :=
  if recorder.phase = RecorderPhase.writing then
    (.ok, { recorder with phase := RecorderPhase.finished },
      [if outcome then some outputPath else none])
  else
    (.invalidOperation, recorder, [])

/-- Modelled from the spec: the construction-time validation shared by
the per-format constructors of `VKTMediaRecorder.h`
(`VKTMediaRecorderCreateMP4` … `VKTMediaRecorderCreateWAV`), whose
implementations are not part of the repository's sources.  Spec §4.4:
"passing `sampleRate=0, channelCount=0` to a video format disables its
audio track.  Video-only formats (GIF, JPEG) reject non-zero audio
parameters with `InvalidOperation`". -/
def createRecorder (format : VKTMediaFormat) (path : String)
    (width height sampleRate channelCount : Int) :
    VKTStatus × Option MediaRecorder :=
  let _ := path
  if ¬ formatSupportsAudio format ∧ (sampleRate ≠ 0 ∨ channelCount ≠ 0) then
    (.invalidOperation, none)
  else
    (.ok, some {
      format := format
      width := width
      height := height
      sampleRate := sampleRate
      channelCount := channelCount
      lastVideoTs := none
      lastAudioTs := none
      phase := RecorderPhase.writing })

/-- `VKTMediaRecorderGetWidth` of `VKTMediaRecorder.h`, whose return
contract is documented in the header: `VKT_OK` if successful,
`VKT_ERROR_INVALID_ARGUMENT` if the `recorder` or `width` arguments
are `NULL`, `VKT_ERROR_INVALID_OPERATION` if the recorder does not
support recording video frames.  Pointers are embedded as `Option` /
`Bool` (whether the output pointer is non-null); the write through the
output pointer is the `Option Int` component. -/
def VKTMediaRecorderGetWidth (recorder : Option MediaRecorder)
    (widthPtrNonNull : Bool) : VKTStatus × Option Int :=
  match recorder, widthPtrNonNull with
  | none, _ => (.invalidArgument, none)
  | some _, false => (.invalidArgument, none)
  | some r, true =>
    if formatSupportsVideo r.format then (.ok, some r.width)
    else (.invalidOperation, none)

/-- `VKTMediaRecorderGetHeight` of `VKTMediaRecorder.h`; same
documented contract as `VKTMediaRecorderGetWidth`, returning the
configured height. -/
def VKTMediaRecorderGetHeight (recorder : Option MediaRecorder)
    (heightPtrNonNull : Bool) : VKTStatus × Option Int :=
  match recorder, heightPtrNonNull with
  | none, _ => (.invalidArgument, none)
  | some _, false => (.invalidArgument, none)
  | some r, true =>
    if formatSupportsVideo r.format then (.ok, some r.height)
    else (.invalidOperation, none)

/-- Rotation constants of `VKTPixelRotation` in `VKTPixelBuffer.h`
(`0`, `90`, `180`, `270` degrees counter-clockwise). -/
inductive VKTPixelRotation where
  | rot0
  | rot90
  | rot180
  | rot270
deriving DecidableEq, Repr

/-- Destination width consistent with a rotation of a `w × h` source:
90 and 270 degree rotations swap width and height (spec §4.3). -/
def rotatedWidth : VKTPixelRotation → Nat → Nat → Nat
  | .rot0, w, _ => w
  | .rot180, w, _ => w
  | .rot90, _, h => h
  | .rot270, _, h => h

/-- Destination height consistent with a rotation of a `w × h`
source. -/
def rotatedHeight : VKTPixelRotation → Nat → Nat → Nat
  | .rot0, _, h => h
  | .rot180, _, h => h
  | .rot90, w, _ => w
  | .rot270, w, _ => w

/-- Source coordinates feeding destination pixel `(x, y)` under a
counter-clockwise rotation of a `w × h` source: the exact index
permutation of spec §4.3 step (2) ("no interpolation — exact pixel
remap").  For 90 degrees the rightmost source column becomes the top
destination row. -/
def rotIndex : VKTPixelRotation → Nat → Nat → Nat → Nat → Nat × Nat
  | .rot0, _, _, x, y => (x, y)
  | .rot90, w, _, x, y => (w - 1 - y, x)
  | .rot180, w, h, x, y => (w - 1 - x, h - 1 - y)
  | .rot270, _, h, x, y => (y, h - 1 - x)

/-- Clamp an integer into one byte, used by the color conversion. -/
def clampByte (v : Int) : Nat := (max 0 (min 255 v)).toNat

/-- Swap the first and third byte of a 32-bit pixel value (RGBA to
BGRA channel reorder and back); bits above the third byte are kept in
place. -/
def swapRB (p : Nat) : Nat :=
  p / 65536 % 256 + 256 * (p / 256 % 256) + 65536 * (p % 256)
    + 16777216 * (p / 16777216)

/-- Modelled from the spec: the YCbCr to RGB color conversion of spec
§4.3 step (1) ("upsample chroma and color-convert to RGB"; the spec
fixes no coefficients, so the standard BT.601 integer approximation is
used; no proved property depends on the particular values).  The input
pixel packs `Y`, `Cb`, `Cr` into its first three bytes; the result is
an RGBA pixel with opaque alpha. -/
def ycbcrToRgba (p : Nat) : Nat :=
  let y : Int := (p % 256 : Nat)
  let cb : Int := (p / 256 % 256 : Nat)
  let cr : Int := (p / 65536 % 256 : Nat)
  let r := clampByte ((298 * (y - 16) + 409 * (cr - 128) + 128) / 256)
  let g := clampByte ((298 * (y - 16) - 100 * (cb - 128) - 208 * (cr - 128) + 128) / 256)
  let b := clampByte ((298 * (y - 16) + 516 * (cb - 128) + 128) / 256)
  r + 256 * g + 65536 * b + 16777216 * 255

/-- Normalize a source pixel to RGBA channel order (spec §4.3 steps
(1) and (4): planar sources are color-converted, BGRA sources have
their channels reordered). -/
def toRgbaPixel : VKTPixelFormat → Nat → Nat
  | .rgba8888, p => p
  | .bgra8888, p => swapRB p
  | .ycbcr420, p => ycbcrToRgba p
  | .unknown, p => p

/-- Pack an RGBA pixel into the destination's interleaved channel
order (spec §4.3 step (4)). -/
def fromRgbaPixel : VKTPixelFormat → Nat → Nat
  | .rgba8888, p => p
  | .bgra8888, p => swapRB p
  | .ycbcr420, p => p
  | .unknown, p => p

/-- Per-pixel value conversion between formats: a same-format copy
leaves the pixel untouched; otherwise the pixel is normalized to RGBA
and re-packed for the destination. -/
def convertPixel (srcFormat dstFormat : VKTPixelFormat) (p : Nat) : Nat :=
  if srcFormat = dstFormat then p
  else fromRgbaPixel dstFormat (toRgbaPixel srcFormat p)

/-- Modelled from the spec: the `(srcFormat, dstFormat)` pairs the
converter supports (spec §4.3: conversions are "total for any valid
(srcFormat, dstFormat) pair in the supported set; an unsupported pair
fails with `NotImplemented`").  Any valid source converts into the
interleaved destinations RGBA8888/BGRA8888 (step (4) packs into
"interleaved RGBA/BGRA channel order"), and any valid format copies
into itself (forced by the §4.3 idempotence property). -/
def supportedConversion (srcFormat dstFormat : VKTPixelFormat) : Bool :=
  srcFormat ≠ VKTPixelFormat.unknown ∧
    (dstFormat = VKTPixelFormat.rgba8888 ∨ dstFormat = VKTPixelFormat.bgra8888 ∨
      dstFormat = srcFormat)

/-- Modelled from the spec: `VKTPixelBufferCopyTo` of
`VKTPixelBuffer.h` (the implementation is not part of the repository's
sources).  Spec §4.3: the destination must be pre-allocated with
dimensions consistent with the rotation (else an argument error); an
unsupported format pair fails with `NotImplemented`; otherwise the
destination receives the source pixels color-converted (step 1),
rotated by index permutation (step 2), row-reversed when the net
mirror — the XOR of the two buffers' mirrored flags — is set (step 3),
and packed into the destination's channel order (step 4).  This
definition is the per-destination-pixel map of steps 1-4. -/
def copyToPix (source destination : VKTPixelBuffer)
    (rotation : VKTPixelRotation) (x y : Nat) : Nat :=
  let y' := if xor source.mirrored destination.mirrored
    then destination.height - 1 - y else y
  let src := rotIndex rotation source.width source.height x y'
  convertPixel source.format destination.format (source.pix src.1 src.2)

/-- Continuation of the above: the full conversion with its argument
and capability checks. -/
def VKTPixelBufferCopyTo (source destination : VKTPixelBuffer)
    (rotation : VKTPixelRotation) : VKTStatus × VKTPixelBuffer :=
  if ¬ (destination.width = rotatedWidth rotation source.width source.height ∧
        destination.height = rotatedHeight rotation source.width source.height) then
    (.invalidArgument, destination)
  else if ¬ supportedConversion source.format destination.format then
    (.notImplemented, destination)
  else
    (.ok, { destination with pix := copyToPix source destination rotation })

/-- `VKTPixelBufferGetData` of `VKTPixelBuffer.h`, whose contract is
documented in the header: "If the camera image uses a planar format,
this will return `NULL`."  The returned data is the buffer's pixel
content; `none` embeds the `NULL` pointer. -/
def VKTPixelBufferGetData (pixelBuffer : VKTPixelBuffer) :
    VKTStatus × Option (Nat → Nat → Nat) :=
  if isPlanarFormat pixelBuffer.format then (.ok, none)
  else (.ok, some pixelBuffer.pix)

/-- `VKTPixelBufferGetPlaneCount` of `VKTPixelBuffer.h`, whose
contract is documented in the header: "If the buffer uses an
interleaved format or only has a single plane, this function returns
zero." -/
def VKTPixelBufferGetPlaneCount (pixelBuffer : VKTPixelBuffer) :
    VKTStatus × Nat :=
  if ¬ isPlanarFormat pixelBuffer.format ∨ pixelBuffer.planeCount ≤ 1 then
    (.ok, 0)
  else
    (.ok, pixelBuffer.planeCount)

/-- Modelled from the spec: a generic timestamped sample buffer
(`VKTSampleBuffer`), as handed out by the media reader. -/
structure VKTSampleBuffer where
  timestamp : Int
deriving DecidableEq, Repr

/-- Modelled from the spec: the reader state behind the opaque
`VKTMediaReader*` handle of `VKTMediaReader.h` (the implementation is
not part of the repository's sources).  A reader created from an asset
holds the still-unread sample buffers of the selected track in
presentation order; it is strictly sequential and forward-only. -/
structure MediaReader where
  pending : List VKTSampleBuffer
deriving DecidableEq, Repr

/-- Modelled from the spec: `VKTMediaReaderReadNextSampleBuffer` of
`VKTMediaReader.h`, whose contract is documented in the header:
`VKT_OK` if the sample buffer was successfully read,
`VKT_ERROR_INVALID_OPERATION` when there are no more sample buffers to
be read.  The exhausted reader is not restartable: it stays empty. -/
def VKTMediaReaderReadNextSampleBuffer (reader : MediaReader) :
    (VKTStatus × Option VKTSampleBuffer) × MediaReader :=
  match reader.pending with
  | [] => ((.invalidOperation, none), reader)
  | b :: rest => ((.ok, some b), ⟨rest⟩)

/-- Iterated reads: `readMany reader n` performs `n + 1` successive
`VKTMediaReaderReadNextSampleBuffer` calls and returns the outcome of
the last one. -/
def readMany (reader : MediaReader) :
    Nat → (VKTStatus × Option VKTSampleBuffer) × MediaReader
  | 0 => VKTMediaReaderReadNextSampleBuffer reader
  | n + 1 => readMany (VKTMediaReaderReadNextSampleBuffer reader).2 n

/-- Media types of `VKTMediaType` in `VKTMediaAsset.h`. -/
inductive VKTMediaType where
  | unknown
  | image
  | audio
  | video
  | text
  | sequence
deriving DecidableEq, Repr

/-- Modelled from the spec: the media asset behind the opaque
`VKTMediaAsset*` handle of `VKTMediaAsset.h` (the implementation is
not part of the repository's sources): a media type together with the
ordered sub-assets, which are meaningful for `sequence` assets. -/
inductive MediaAsset where
  | mk : VKTMediaType → List MediaAsset → MediaAsset

/-- The media type of an asset. -/
def MediaAsset.mediaType : MediaAsset → VKTMediaType
  | .mk t _ => t

/-- The ordered sub-assets of an asset. -/
def MediaAsset.subAssets : MediaAsset → List MediaAsset
  | .mk _ s => s

/-- Modelled from the spec: `VKTMediaAssetGetSubAssetCount` of
`VKTMediaAsset.h` (the implementation is not part of the repository's
sources).  Spec §4.6: "`getSubAssetCount` returns 0 for non-Sequence
types". -/
def VKTMediaAssetGetSubAssetCount (asset : MediaAsset) : VKTStatus × Int :=
  if asset.mediaType = VKTMediaType.sequence then
    (.ok, (asset.subAssets.length : Int))
  else
    (.ok, 0)

/-- Modelled from the spec: `VKTMediaAssetGetSubAsset` of
`VKTMediaAsset.h` (the implementation is not part of the repository's
sources).  Valid only for sequence assets (header: "This is only valid
for sequence assets"); an index outside `[0, subAssetCount)` is an
argument error (spec §3 invariant). -/
def VKTMediaAssetGetSubAsset (asset : MediaAsset) (index : Int) :
    VKTStatus × Option MediaAsset :=
  if asset.mediaType = VKTMediaType.sequence then
    if 0 ≤ index ∧ index < (asset.subAssets.length : Int) then
      (.ok, asset.subAssets.get? index.toNat)
    else
      (.invalidArgument, none)
  else
    (.invalidOperation, none)

/-- Lifecycle states of a media device (spec §4.1): `idle`, `running`,
and the terminal states reached by releasing the handle or by a
hot-unplug disconnect, after which any call fails with
`VKT_ERROR_INVALID_OPERATION`. -/
inductive VKTDeviceState where
  | idle
  | running
  | released
  | disconnected
deriving DecidableEq, Repr

/-- Events acting on a media device: the control calls
`VKTMediaDeviceStartRunning` / `VKTMediaDeviceStopRunning` /
`VKTMediaDeviceRelease` of `VKTMediaDevice.h`, and the spontaneous
hot-unplug disconnect of spec §4.1. -/
inductive DevEvent where
  | start
  | stop
  | release
  | disconnect
deriving DecidableEq, Repr

/-- Modelled from the spec: the device state transitions of spec §4.1
(the `VKTMediaDevice.h` implementation is not part of the repository's
sources).  `startRunning` transitions `idle → running` and fails with
`InvalidOperation` if already running; `stopRunning` transitions
`running → idle`; `release` implicitly stops a running device and
invalidates the handle; after `release` or `disconnect` every call
fails with `InvalidOperation`.  Stopping an idle device is a state
error that leaves the device idle. -/
def devStep : VKTDeviceState → DevEvent → VKTStatus × VKTDeviceState
  | .idle, .start => (.ok, .running)
  | .running, .start => (.invalidOperation, .running)
  | .running, .stop => (.ok, .idle)
  | .idle, .stop => (.invalidOperation, .idle)
  | .idle, .release => (.ok, .released)
  | .running, .release => (.ok, .released)
  | .idle, .disconnect => (.ok, .disconnected)
  | .running, .disconnect => (.ok, .disconnected)
  | .released, _ => (.invalidOperation, .released)
  | .disconnected, _ => (.invalidOperation, .disconnected)

/-- The device state after a sequence of events. -/
def devRunTrace (s : VKTDeviceState) (tr : List DevEvent) : VKTDeviceState :=
  tr.foldl (fun st e => (devStep st e).2) s

/-- `VKTMediaDeviceIsRunning` of `VKTMediaDevice.h`: reports whether
the device is in the `running` state. -/
def VKTMediaDeviceIsRunning : VKTDeviceState → Bool
  | .running => true
  | _ => false

/-- C1: For every recorder in the Writing state and every track (video
or audio), an append call whose buffer timestamp is not strictly
greater than the last appended timestamp of that same track is
rejected with `InvalidOperation` and does not change the recorder's
state, while every append with a strictly greater timestamp is
accepted; the video and audio tracks' timestamp orders are independent
of each other. -/
theorem append_timestamp_monotonicity (r : MediaRecorder)
    (hw : r.phase = RecorderPhase.writing) :
    (∀ pb : VKTPixelBuffer, formatSupportsVideo r.format = true →
      (∀ t, r.lastVideoTs = some t → pb.timestamp ≤ t →
        VKTMediaRecorderAppendPixelBuffer r pb = (.invalidOperation, r)) ∧
      (∀ t, r.lastVideoTs = some t → t < pb.timestamp →
        VKTMediaRecorderAppendPixelBuffer r pb =
          (.ok, { r with lastVideoTs := some pb.timestamp })) ∧
      (r.lastVideoTs = none →
        VKTMediaRecorderAppendPixelBuffer r pb =
          (.ok, { r with lastVideoTs := some pb.timestamp }))) ∧
    (∀ ab : VKTAudioBuffer, formatSupportsAudio r.format = true →
      (∀ t, r.lastAudioTs = some t → ab.timestamp ≤ t →
        VKTMediaRecorderAppendAudioBuffer r ab = (.invalidOperation, r)) ∧
      (∀ t, r.lastAudioTs = some t → t < ab.timestamp →
        VKTMediaRecorderAppendAudioBuffer r ab =
          (.ok, { r with lastAudioTs := some ab.timestamp })) ∧
      (r.lastAudioTs = none →
        VKTMediaRecorderAppendAudioBuffer r ab =
          (.ok, { r with lastAudioTs := some ab.timestamp }))) ∧
    (∀ pb : VKTPixelBuffer,
      (VKTMediaRecorderAppendPixelBuffer r pb).2.lastAudioTs = r.lastAudioTs) ∧
    (∀ ab : VKTAudioBuffer,
      (VKTMediaRecorderAppendAudioBuffer r ab).2.lastVideoTs = r.lastVideoTs) ∧
    (∀ (pb : VKTPixelBuffer) (a' : Option Int),
      (VKTMediaRecorderAppendPixelBuffer { r with lastAudioTs := a' } pb).1 =
        (VKTMediaRecorderAppendPixelBuffer r pb).1) ∧
    (∀ (ab : VKTAudioBuffer) (v' : Option Int),
      (VKTMediaRecorderAppendAudioBuffer { r with lastVideoTs := v' } ab).1 =
        (VKTMediaRecorderAppendAudioBuffer r ab).1) := by
  refine ⟨?_, ?_, ?_, ?_, ?_, ?_⟩
  · intro pb hv
    refine ⟨?_, ?_, ?_⟩
    · intro t ht hle
      simp [VKTMediaRecorderAppendPixelBuffer, hw, hv, ht, afterLast]
      omega
    · intro t ht hlt
      simp [VKTMediaRecorderAppendPixelBuffer, hw, hv, ht, afterLast, hlt]
    · intro ht
      simp [VKTMediaRecorderAppendPixelBuffer, hw, hv, ht, afterLast]
  · intro ab ha
    refine ⟨?_, ?_, ?_⟩
    · intro t ht hle
      simp [VKTMediaRecorderAppendAudioBuffer, hw, ha, ht, afterLast]
      omega
    · intro t ht hlt
      simp [VKTMediaRecorderAppendAudioBuffer, hw, ha, ht, afterLast, hlt]
    · intro ht
      simp [VKTMediaRecorderAppendAudioBuffer, hw, ha, ht, afterLast]
  · intro pb
    simp only [VKTMediaRecorderAppendPixelBuffer]
    split
    · rfl
    · split
      · rfl
      · split <;> rfl
  · intro ab
    simp only [VKTMediaRecorderAppendAudioBuffer]
    split
    · rfl
    · split
      · rfl
      · split <;> rfl
  · intro pb a'
    by_cases hv : formatSupportsVideo r.format = true <;>
      by_cases haf : afterLast pb.timestamp r.lastVideoTs = true <;>
        simp [VKTMediaRecorderAppendPixelBuffer, hw, hv, haf]
  · intro ab v'
    by_cases ha : formatSupportsAudio r.format = true <;>
      by_cases haf : afterLast ab.timestamp r.lastAudioTs = true <;>
        simp [VKTMediaRecorderAppendAudioBuffer, hw, ha, haf]

/-- Witness for `append_timestamp_monotonicity`: a concrete MP4
recorder whose last video timestamp is 10 rejects a frame stamped 5
and accepts a frame stamped 20. -/
theorem append_timestamp_monotonicity_witness :
    VKTMediaRecorderAppendPixelBuffer
      ⟨.mp4, 640, 480, 44100, 2, some 10, some 7, .writing⟩
      ⟨640, 480, .rgba8888, false, 5, 0, fun _ _ => 0⟩ =
      (.invalidOperation, ⟨.mp4, 640, 480, 44100, 2, some 10, some 7, .writing⟩) ∧
    VKTMediaRecorderAppendPixelBuffer
      ⟨.mp4, 640, 480, 44100, 2, some 10, some 7, .writing⟩
      ⟨640, 480, .rgba8888, false, 20, 0, fun _ _ => 0⟩ =
      (.ok, ⟨.mp4, 640, 480, 44100, 2, some 20, some 7, .writing⟩) := by
  constructor
  · exact ((append_timestamp_monotonicity
      ⟨.mp4, 640, 480, 44100, 2, some 10, some 7, .writing⟩ rfl).1
      ⟨640, 480, .rgba8888, false, 5, 0, fun _ _ => 0⟩ rfl).1 10 rfl (by decide)
  · exact ((append_timestamp_monotonicity
      ⟨.mp4, 640, 480, 44100, 2, some 10, some 7, .writing⟩ rfl).1
      ⟨640, 480, .rgba8888, false, 20, 0, fun _ _ => 0⟩ rfl).2.1 10 rfl (by decide)

/-- C2: For every recorder, finishWriting invokes its completion
handler exactly once — with the output path on success and a null path
on failure — the recorder is released automatically as part of this
transition, and any subsequent use of the recorder (including a second
finishWriting) is `InvalidOperation`. -/
theorem finish_writing_exactly_once (r : MediaRecorder)
    (hw : r.phase = RecorderPhase.writing) (outcome : Bool) (path : String) :
    (VKTMediaRecorderFinishWriting r outcome path).1 = VKTStatus.ok ∧
    (VKTMediaRecorderFinishWriting r outcome path).2.2.length = 1 ∧
    (VKTMediaRecorderFinishWriting r outcome path).2.2 =
      [if outcome then some path else none] ∧
    (VKTMediaRecorderFinishWriting r outcome path).2.1.phase =
      RecorderPhase.finished ∧
    (∀ pb : VKTPixelBuffer,
      VKTMediaRecorderAppendPixelBuffer
          (VKTMediaRecorderFinishWriting r outcome path).2.1 pb =
        (.invalidOperation, (VKTMediaRecorderFinishWriting r outcome path).2.1)) ∧
    (∀ ab : VKTAudioBuffer,
      VKTMediaRecorderAppendAudioBuffer
          (VKTMediaRecorderFinishWriting r outcome path).2.1 ab =
        (.invalidOperation, (VKTMediaRecorderFinishWriting r outcome path).2.1)) ∧
    (∀ (outcome' : Bool) (path' : String),
      VKTMediaRecorderFinishWriting
          (VKTMediaRecorderFinishWriting r outcome path).2.1 outcome' path' =
        (.invalidOperation, (VKTMediaRecorderFinishWriting r outcome path).2.1, [])) := by
  refine ⟨?_, ?_, ?_, ?_, ?_, ?_, ?_⟩
  · simp [VKTMediaRecorderFinishWriting, hw]
  · simp [VKTMediaRecorderFinishWriting, hw]
  · simp [VKTMediaRecorderFinishWriting, hw]
  · simp [VKTMediaRecorderFinishWriting, hw]
  · intro pb
    simp [VKTMediaRecorderFinishWriting, VKTMediaRecorderAppendPixelBuffer, hw]
  · intro ab
    simp [VKTMediaRecorderFinishWriting, VKTMediaRecorderAppendAudioBuffer, hw]
  · intro outcome' path'
    simp [VKTMediaRecorderFinishWriting, hw]

/-- Witness for `finish_writing_exactly_once`: a concrete WAV recorder
finished under forced success and forced failure. -/
theorem finish_writing_exactly_once_witness :
    (VKTMediaRecorderFinishWriting
        ⟨.wav, 0, 0, 44100, 2, none, none, .writing⟩ true "out.wav").2.2 =
      [some "out.wav"] ∧
    (VKTMediaRecorderFinishWriting
        ⟨.wav, 0, 0, 44100, 2, none, none, .writing⟩ false "out.wav").2.2 =
      [none] ∧
    VKTMediaRecorderFinishWriting
      (VKTMediaRecorderFinishWriting
        ⟨.wav, 0, 0, 44100, 2, none, none, .writing⟩ true "out.wav").2.1
      true "again.wav" =
      (.invalidOperation, ⟨.wav, 0, 0, 44100, 2, none, none, .finished⟩, []) := by
  refine ⟨?_, ?_, ?_⟩
  · exact (finish_writing_exactly_once _ rfl true "out.wav").2.2.1
  · exact (finish_writing_exactly_once _ rfl false "out.wav").2.2.1
  · exact (finish_writing_exactly_once _ rfl true "out.wav").2.2.2.2.2.2 true "again.wav"

/-- C7: Video-only recorder formats (GIF, JPEG) reject non-zero audio
construction parameters with `InvalidOperation`, and the audio-only
WAV format rejects appendPixelBuffer (video append) calls. -/
theorem video_only_audio_only_rejections :
    (∀ (path : String) (w h sr cc : Int), sr ≠ 0 ∨ cc ≠ 0 →
      createRecorder VKTMediaFormat.gif path w h sr cc =
        (.invalidOperation, none) ∧
      createRecorder VKTMediaFormat.jpeg path w h sr cc =
        (.invalidOperation, none)) ∧
    (∀ (r : MediaRecorder) (pb : VKTPixelBuffer),
      r.format = VKTMediaFormat.wav →
      VKTMediaRecorderAppendPixelBuffer r pb = (.invalidOperation, r)) := by
  constructor
  · intro path w h sr cc hnz
    constructor <;> simp [createRecorder, formatSupportsAudio, hnz]
  · intro r pb hf
    simp only [VKTMediaRecorderAppendPixelBuffer]
    split
    · rfl
    · simp [hf, formatSupportsVideo]

/-- Witness for `video_only_audio_only_rejections`: a GIF recorder
constructed with sample rate 44100 is rejected, and a WAV recorder
rejects a video frame append. -/
theorem video_only_audio_only_rejections_witness :
    createRecorder VKTMediaFormat.gif "anim.gif" 64 64 44100 0 =
      (.invalidOperation, none) ∧
    VKTMediaRecorderAppendPixelBuffer
      ⟨.wav, 0, 0, 44100, 2, none, none, .writing⟩
      ⟨64, 64, .rgba8888, false, 0, 0, fun _ _ => 0⟩ =
      (.invalidOperation, ⟨.wav, 0, 0, 44100, 2, none, none, .writing⟩) := by
  constructor
  · exact (video_only_audio_only_rejections.1 "anim.gif" 64 64 44100 0
      (Or.inl (by decide))).1
  · exact video_only_audio_only_rejections.2
      ⟨.wav, 0, 0, 44100, 2, none, none, .writing⟩
      ⟨64, 64, .rgba8888, false, 0, 0, fun _ _ => 0⟩ rfl

/-- C8: For every recorder, VKTMediaRecorderGetWidth (and GetHeight)
returns OK and writes the configured value into the output parameter
exactly when the recorder pointer and output pointer are non-null and
the recorder's format supports video; it returns `InvalidArgument`
when either pointer is null and `InvalidOperation` when the format
does not support video, and the output parameter carries a valid value
only when the return status is OK. -/
theorem get_width_height_status (recorder : Option MediaRecorder) (p : Bool) :
    (recorder = none ∨ p = false →
      VKTMediaRecorderGetWidth recorder p = (.invalidArgument, none) ∧
      VKTMediaRecorderGetHeight recorder p = (.invalidArgument, none)) ∧
    (∀ r, recorder = some r → p = true → formatSupportsVideo r.format = false →
      VKTMediaRecorderGetWidth recorder p = (.invalidOperation, none) ∧
      VKTMediaRecorderGetHeight recorder p = (.invalidOperation, none)) ∧
    (∀ r, recorder = some r → p = true → formatSupportsVideo r.format = true →
      VKTMediaRecorderGetWidth recorder p = (.ok, some r.width) ∧
      VKTMediaRecorderGetHeight recorder p = (.ok, some r.height)) ∧
    ((VKTMediaRecorderGetWidth recorder p).2.isSome ↔
      (VKTMediaRecorderGetWidth recorder p).1 = VKTStatus.ok) ∧
    ((VKTMediaRecorderGetHeight recorder p).2.isSome ↔
      (VKTMediaRecorderGetHeight recorder p).1 = VKTStatus.ok) := by
  refine ⟨?_, ?_, ?_, ?_, ?_⟩
  · rintro (rfl | rfl)
    · simp [VKTMediaRecorderGetWidth, VKTMediaRecorderGetHeight]
    · cases recorder <;>
        simp [VKTMediaRecorderGetWidth, VKTMediaRecorderGetHeight]
  · rintro r rfl rfl hfv
    simp [VKTMediaRecorderGetWidth, VKTMediaRecorderGetHeight, hfv]
  · rintro r rfl rfl hfv
    simp [VKTMediaRecorderGetWidth, VKTMediaRecorderGetHeight, hfv]
  · cases recorder with
    | none => simp [VKTMediaRecorderGetWidth]
    | some r =>
      cases p with
      | false => simp [VKTMediaRecorderGetWidth]
      | true =>
        by_cases hfv : formatSupportsVideo r.format = true <;>
          simp [VKTMediaRecorderGetWidth, hfv]
  · cases recorder with
    | none => simp [VKTMediaRecorderGetHeight]
    | some r =>
      cases p with
      | false => simp [VKTMediaRecorderGetHeight]
      | true =>
        by_cases hfv : formatSupportsVideo r.format = true <;>
          simp [VKTMediaRecorderGetHeight, hfv]

/-- Witness for `get_width_height_status`: a 1280x720 MP4 recorder
reports its dimensions, a null recorder pointer is an argument error,
and a WAV recorder is a state error. -/
theorem get_width_height_status_witness :
    VKTMediaRecorderGetWidth
      (some ⟨.mp4, 1280, 720, 0, 0, none, none, .writing⟩) true =
      (.ok, some 1280) ∧
    VKTMediaRecorderGetHeight
      (some ⟨.mp4, 1280, 720, 0, 0, none, none, .writing⟩) true =
      (.ok, some 720) ∧
    VKTMediaRecorderGetWidth none true = (.invalidArgument, none) ∧
    VKTMediaRecorderGetHeight
      (some ⟨.wav, 0, 0, 44100, 2, none, none, .writing⟩) true =
      (.invalidOperation, none) := by
  refine ⟨?_, ?_, ?_, ?_⟩
  · exact ((get_width_height_status
      (some ⟨.mp4, 1280, 720, 0, 0, none, none, .writing⟩) true).2.2.1
      ⟨.mp4, 1280, 720, 0, 0, none, none, .writing⟩ rfl rfl rfl).1
  · exact ((get_width_height_status
      (some ⟨.mp4, 1280, 720, 0, 0, none, none, .writing⟩) true).2.2.1
      ⟨.mp4, 1280, 720, 0, 0, none, none, .writing⟩ rfl rfl rfl).2
  · exact ((get_width_height_status none true).1 (Or.inl rfl)).1
  · exact ((get_width_height_status
      (some ⟨.wav, 0, 0, 44100, 2, none, none, .writing⟩) true).2.1
      ⟨.wav, 0, 0, 44100, 2, none, none, .writing⟩ rfl rfl rfl).2

/-- C4: For every valid pixel buffer A and a destination buffer of the
same format, width, and height, converting A into the destination with
rotation 0 degrees and no change in the mirrored flag produces pixel
data byte-identical to A's. -/
theorem copy_to_identity (source destination : VKTPixelBuffer)
    (hvalid : source.format ≠ VKTPixelFormat.unknown)
    (hf : destination.format = source.format)
    (hw : destination.width = source.width)
    (hh : destination.height = source.height)
    (hm : destination.mirrored = source.mirrored)
    (x y : Nat) :
    (VKTPixelBufferCopyTo source destination VKTPixelRotation.rot0).1 =
      VKTStatus.ok ∧
    (VKTPixelBufferCopyTo source destination VKTPixelRotation.rot0).2.width =
      source.width ∧
    (VKTPixelBufferCopyTo source destination VKTPixelRotation.rot0).2.height =
      source.height ∧
    (VKTPixelBufferCopyTo source destination VKTPixelRotation.rot0).2.pix x y =
      source.pix x y := by
  refine ⟨?_, ?_, ?_, ?_⟩ <;>
    simp [VKTPixelBufferCopyTo, copyToPix, rotatedWidth, rotatedHeight,
      rotIndex, convertPixel, supportedConversion, hvalid, hf, hw, hh, hm,
      Bool.xor_self]

/-- Witness for `copy_to_identity`: a concrete 2x2 RGBA buffer copied
with no rotation reproduces its own pixels. -/
theorem copy_to_identity_witness :
    (VKTPixelBufferCopyTo
      ⟨2, 2, .rgba8888, false, 0, 0, fun x y => 10 * y + x⟩
      ⟨2, 2, .rgba8888, false, 5, 0, fun _ _ => 99⟩
      VKTPixelRotation.rot0).1 = VKTStatus.ok ∧
    (VKTPixelBufferCopyTo
      ⟨2, 2, .rgba8888, false, 0, 0, fun x y => 10 * y + x⟩
      ⟨2, 2, .rgba8888, false, 5, 0, fun _ _ => 99⟩
      VKTPixelRotation.rot0).2.pix 1 0 = 1 := by
  constructor
  · exact (copy_to_identity
      ⟨2, 2, .rgba8888, false, 0, 0, fun x y => 10 * y + x⟩
      ⟨2, 2, .rgba8888, false, 5, 0, fun _ _ => 99⟩
      (by decide) rfl rfl rfl rfl 1 0).1
  · exact ((copy_to_identity
      ⟨2, 2, .rgba8888, false, 0, 0, fun x y => 10 * y + x⟩
      ⟨2, 2, .rgba8888, false, 5, 0, fun _ _ => 99⟩
      (by decide) rfl rfl rfl rfl 1 0).2.2.2).trans (by decide)

/-- C5: For every valid source pixel buffer of dimensions (w,h),
applying convert with rotation 90 degrees into an (h,w) destination
and then convert with rotation 90 degrees again into a (w,h)
destination yields the same pixel data as a single convert with
rotation 180 degrees applied to the source. -/
theorem rotation_composition (source d1 d2 d3 : VKTPixelBuffer)
    (hvalid : source.format ≠ VKTPixelFormat.unknown)
    (hf1 : d1.format = source.format) (hf2 : d2.format = source.format)
    (hf3 : d3.format = source.format)
    (hm1 : d1.mirrored = source.mirrored) (hm2 : d2.mirrored = source.mirrored)
    (hm3 : d3.mirrored = source.mirrored)
    (hw1 : d1.width = source.height) (hh1 : d1.height = source.width)
    (hw2 : d2.width = source.width) (hh2 : d2.height = source.height)
    (hw3 : d3.width = source.width) (hh3 : d3.height = source.height)
    (x y : Nat) :
    (VKTPixelBufferCopyTo source d1 VKTPixelRotation.rot90).1 =
      VKTStatus.ok ∧
    (VKTPixelBufferCopyTo (VKTPixelBufferCopyTo source d1
        VKTPixelRotation.rot90).2 d2 VKTPixelRotation.rot90).1 =
      VKTStatus.ok ∧
    (VKTPixelBufferCopyTo source d3 VKTPixelRotation.rot180).1 =
      VKTStatus.ok ∧
    (VKTPixelBufferCopyTo (VKTPixelBufferCopyTo source d1
        VKTPixelRotation.rot90).2 d2 VKTPixelRotation.rot90).2.pix x y =
      (VKTPixelBufferCopyTo source d3 VKTPixelRotation.rot180).2.pix x y := by
  refine ⟨?_, ?_, ?_, ?_⟩ <;>
    simp [VKTPixelBufferCopyTo, copyToPix, rotatedWidth, rotatedHeight,
      rotIndex, convertPixel, supportedConversion, hvalid, hf1, hf2, hf3,
      hm1, hm2, hm3, hw1, hh1, hw2, hh2, hw3, hh3, Bool.xor_self]

/-- Witness for `rotation_composition`: on a concrete 3x2 RGBA buffer,
two 90-degree conversions agree with one 180-degree conversion. -/
theorem rotation_composition_witness :
    (VKTPixelBufferCopyTo
      ⟨3, 2, .rgba8888, false, 0, 0, fun x y => 10 * y + x⟩
      ⟨2, 3, .rgba8888, false, 0, 0, fun _ _ => 99⟩
      VKTPixelRotation.rot90).1 = VKTStatus.ok ∧
    (VKTPixelBufferCopyTo
      (VKTPixelBufferCopyTo
        ⟨3, 2, .rgba8888, false, 0, 0, fun x y => 10 * y + x⟩
        ⟨2, 3, .rgba8888, false, 0, 0, fun _ _ => 99⟩
        VKTPixelRotation.rot90).2
      ⟨3, 2, .rgba8888, false, 0, 0, fun _ _ => 98⟩
      VKTPixelRotation.rot90).2.pix 0 0 =
    (VKTPixelBufferCopyTo
      ⟨3, 2, .rgba8888, false, 0, 0, fun x y => 10 * y + x⟩
      ⟨3, 2, .rgba8888, false, 0, 0, fun _ _ => 97⟩
      VKTPixelRotation.rot180).2.pix 0 0 := by
  constructor
  · exact (rotation_composition
      ⟨3, 2, .rgba8888, false, 0, 0, fun x y => 10 * y + x⟩
      ⟨2, 3, .rgba8888, false, 0, 0, fun _ _ => 99⟩
      ⟨3, 2, .rgba8888, false, 0, 0, fun _ _ => 98⟩
      ⟨3, 2, .rgba8888, false, 0, 0, fun _ _ => 97⟩
      (by decide) rfl rfl rfl rfl rfl rfl rfl rfl rfl rfl rfl rfl 0 0).1
  · exact (rotation_composition
      ⟨3, 2, .rgba8888, false, 0, 0, fun x y => 10 * y + x⟩
      ⟨2, 3, .rgba8888, false, 0, 0, fun _ _ => 99⟩
      ⟨3, 2, .rgba8888, false, 0, 0, fun _ _ => 98⟩
      ⟨3, 2, .rgba8888, false, 0, 0, fun _ _ => 97⟩
      (by decide) rfl rfl rfl rfl rfl rfl rfl rfl rfl rfl rfl rfl 0 0).2.2.2

/-- C10: For every pixel buffer, VKTPixelBufferGetData yields NULL
data when the buffer uses a planar format, and
VKTPixelBufferGetPlaneCount yields zero when the buffer uses an
interleaved format or has only a single plane; so for any fixed pixel
buffer, at most one of the interleaved data accessor and the per-plane
accessors yields usable data. -/
theorem data_plane_accessor_exclusivity (buf : VKTPixelBuffer) :
    (isPlanarFormat buf.format = true →
      (VKTPixelBufferGetData buf).2 = none) ∧
    (isPlanarFormat buf.format = false ∨ buf.planeCount ≤ 1 →
      (VKTPixelBufferGetPlaneCount buf).2 = 0) ∧
    ¬((VKTPixelBufferGetData buf).2.isSome = true ∧
      0 < (VKTPixelBufferGetPlaneCount buf).2) := by
  refine ⟨?_, ?_, ?_⟩
  · intro h
    simp [VKTPixelBufferGetData, h]
  · rintro (h | h)
    · simp [VKTPixelBufferGetPlaneCount, h]
    · simp [VKTPixelBufferGetPlaneCount, h]
  · rintro ⟨h1, h2⟩
    by_cases hp : isPlanarFormat buf.format = true
    · simp [VKTPixelBufferGetData, hp] at h1
    · simp [VKTPixelBufferGetPlaneCount, hp] at h2

/-- Witness for `data_plane_accessor_exclusivity`: a planar YCbCr420
buffer yields no interleaved data, and an interleaved RGBA buffer
yields plane count zero. -/
theorem data_plane_accessor_exclusivity_witness :
    (VKTPixelBufferGetData
      ⟨4, 4, .ycbcr420, false, 0, 2, fun _ _ => 0⟩).2 = none ∧
    (VKTPixelBufferGetPlaneCount
      ⟨4, 4, .rgba8888, false, 0, 0, fun _ _ => 0⟩).2 = 0 := by
  constructor
  · exact (data_plane_accessor_exclusivity
      ⟨4, 4, .ycbcr420, false, 0, 2, fun _ _ => 0⟩).1 rfl
  · exact (data_plane_accessor_exclusivity
      ⟨4, 4, .rgba8888, false, 0, 0, fun _ _ => 0⟩).2.1 (Or.inl rfl)

/-- C3: For every media reader, each readNext call either returns the
next sample buffer, in strictly increasing timestamp order relative to
the previously returned buffer, with status OK, or signals
end-of-stream by returning InvalidOperation; once end-of-stream is
signalled, every subsequent readNext on the same reader also returns
InvalidOperation (the reader is forward-only and not restartable). -/
theorem reader_sequential_eos (reader : MediaReader)
    (hsorted : reader.pending.Chain'
      (fun a b => a.timestamp < b.timestamp)) :
    (∀ b rest, reader.pending = b :: rest →
      VKTMediaReaderReadNextSampleBuffer reader = ((.ok, some b), ⟨rest⟩)) ∧
    (reader.pending = [] →
      VKTMediaReaderReadNextSampleBuffer reader =
        ((.invalidOperation, none), reader)) ∧
    (∀ b1 b2 r1 r2,
      VKTMediaReaderReadNextSampleBuffer reader = ((.ok, some b1), r1) →
      VKTMediaReaderReadNextSampleBuffer r1 = ((.ok, some b2), r2) →
      b1.timestamp < b2.timestamp) ∧
    (reader.pending = [] → ∀ n,
      (readMany reader n).1 = (.invalidOperation, none) ∧
      (readMany reader n).2 = reader) := by
  refine ⟨?_, ?_, ?_, ?_⟩
  · intro b rest hp
    obtain ⟨l⟩ := reader
    cases hp
    rfl
  · intro hp
    obtain ⟨l⟩ := reader
    cases hp
    rfl
  · intro b1 b2 r1 r2 h1 h2
    obtain ⟨l⟩ := reader
    cases l with
    | nil => simp [VKTMediaReaderReadNextSampleBuffer] at h1
    | cons b rest =>
      injection h1 with h1a h1b
      injection h1a with h1c h1d
      injection h1d with hb
      subst hb
      subst h1b
      cases rest with
      | nil => simp [VKTMediaReaderReadNextSampleBuffer] at h2
      | cons b' rest' =>
        injection h2 with h2a h2b
        injection h2a with h2c h2d
        injection h2d with hb'
        subst hb'
        exact (List.chain'_cons.mp hsorted).1
  · intro hp n
    obtain ⟨l⟩ := reader
    cases hp
    induction n with
    | zero => exact ⟨rfl, rfl⟩
    | succ n ih => exact ih

/-- Witness for `reader_sequential_eos`: a concrete reader holding
timestamps 3 and 7 returns them in order, and the exhausted reader
keeps signalling end-of-stream. -/
theorem reader_sequential_eos_witness :
    VKTMediaReaderReadNextSampleBuffer ⟨[⟨3⟩, ⟨7⟩]⟩ =
      ((.ok, some ⟨3⟩), ⟨[⟨7⟩]⟩) ∧
    ((3 : Int) < 7) ∧
    (readMany ⟨[]⟩ 5).1 = (.invalidOperation, none) := by
  refine ⟨?_, ?_, ?_⟩
  · exact (reader_sequential_eos ⟨[⟨3⟩, ⟨7⟩]⟩
      (List.chain'_cons.mpr ⟨by decide, List.chain'_singleton _⟩)).1
      ⟨3⟩ [⟨7⟩] rfl
  · exact (reader_sequential_eos ⟨[⟨3⟩, ⟨7⟩]⟩
      (List.chain'_cons.mpr ⟨by decide, List.chain'_singleton _⟩)).2.2.1
      ⟨3⟩ ⟨7⟩ ⟨[⟨7⟩]⟩ ⟨[]⟩ rfl rfl
  · exact ((reader_sequential_eos ⟨[]⟩ List.chain'_nil).2.2.2 rfl 5).1

/-- C6: For every Sequence media asset with n sub-assets,
getSubAsset(i) succeeds (returns OK with a valid sub-asset) for every
index i in [0,n) and fails with an argument error for i == n; for
every asset whose media type is not Sequence, getSubAssetCount
returns 0. -/
theorem sub_asset_bounds :
    (∀ asset : MediaAsset, asset.mediaType = VKTMediaType.sequence →
      (∀ i : Int, 0 ≤ i → i < (asset.subAssets.length : Int) →
        (VKTMediaAssetGetSubAsset asset i).1 = VKTStatus.ok ∧
        (VKTMediaAssetGetSubAsset asset i).2.isSome = true) ∧
      (VKTMediaAssetGetSubAsset asset
          ((asset.subAssets.length : Int))).1 = VKTStatus.invalidArgument ∧
      (VKTMediaAssetGetSubAsset asset
          ((asset.subAssets.length : Int))).2 = none) ∧
    (∀ asset : MediaAsset, asset.mediaType ≠ VKTMediaType.sequence →
      (VKTMediaAssetGetSubAssetCount asset).2 = 0) := by
  constructor
  · intro asset hseq
    refine ⟨?_, ?_, ?_⟩
    · intro i h0 hlt
      have hbound : i.toNat < asset.subAssets.length := by omega
      constructor
      · simp [VKTMediaAssetGetSubAsset, hseq, h0, hlt]
      · simp [VKTMediaAssetGetSubAsset, hseq, h0, hlt,
          List.get?_eq_get hbound]
    · simp [VKTMediaAssetGetSubAsset, hseq]
    · simp [VKTMediaAssetGetSubAsset, hseq]
  · intro asset hns
    simp [VKTMediaAssetGetSubAssetCount, hns]

/-- Witness for `sub_asset_bounds`: a concrete sequence asset with two
sub-assets, and a plain video asset with sub-asset count zero. -/
theorem sub_asset_bounds_witness :
    (VKTMediaAssetGetSubAsset
      (.mk VKTMediaType.sequence
        [.mk VKTMediaType.image [], .mk VKTMediaType.audio []]) 1).1 =
      VKTStatus.ok ∧
    (VKTMediaAssetGetSubAsset
      (.mk VKTMediaType.sequence
        [.mk VKTMediaType.image [], .mk VKTMediaType.audio []]) 2).1 =
      VKTStatus.invalidArgument ∧
    (VKTMediaAssetGetSubAssetCount (.mk VKTMediaType.video [])).2 = 0 := by
  refine ⟨?_, ?_, ?_⟩
  · exact ((sub_asset_bounds.1
      (.mk VKTMediaType.sequence
        [.mk VKTMediaType.image [], .mk VKTMediaType.audio []]) rfl).1 1
      (by decide) (by decide)).1
  · exact (sub_asset_bounds.1
      (.mk VKTMediaType.sequence
        [.mk VKTMediaType.image [], .mk VKTMediaType.audio []]) rfl).2.1
  · exact sub_asset_bounds.2 (.mk VKTMediaType.video []) (by decide)

/-- A trace consisting only of `start` events keeps a running device
running: each extra `start` fails with `InvalidOperation` but does not
change the state. -/
theorem devRunTrace_running_of_starts (t : List DevEvent)
    (h : ∀ e ∈ t, e = DevEvent.start) :
    devRunTrace VKTDeviceState.running t = VKTDeviceState.running := by
  induction t with
  | nil => rfl
  | cons e t ih =>
    have he : e = DevEvent.start := h e (List.mem_cons_self e t)
    subst he
    exact ih fun e' he' => h e' (List.mem_cons_of_mem _ he')

/-- If a trace leaves the device running, either the trace splits at a
successful `start` from `idle` followed only by further `start`
events, or the device was already running and the whole trace is
`start` events. -/
theorem devRunTrace_running_split (s : VKTDeviceState) (t : List DevEvent)
    (h : devRunTrace s t = VKTDeviceState.running) :
    (∃ t1 t2, t = t1 ++ DevEvent.start :: t2 ∧
      devRunTrace s t1 = VKTDeviceState.idle ∧
      ∀ e ∈ t2, e = DevEvent.start) ∨
    (s = VKTDeviceState.running ∧ ∀ e ∈ t, e = DevEvent.start) := by
  induction t generalizing s with
  | nil => exact Or.inr ⟨h, by simp⟩
  | cons e t ih =>
    have h' : devRunTrace (devStep s e).2 t = VKTDeviceState.running := h
    rcases ih (devStep s e).2 h' with ⟨t1, t2, heq, hidle, hstarts⟩ | ⟨hrun, hstarts⟩
    · exact Or.inl ⟨e :: t1, t2, by rw [heq, List.cons_append], hidle, hstarts⟩
    · cases s with
      | idle =>
        cases e with
        | start => exact Or.inl ⟨[], t, rfl, rfl, hstarts⟩
        | stop => simp [devStep] at hrun
        | release => simp [devStep] at hrun
        | disconnect => simp [devStep] at hrun
      | running =>
        cases e with
        | start =>
          refine Or.inr ⟨rfl, fun e' he' => ?_⟩
          rcases List.mem_cons.mp he' with rfl | hm
          · rfl
          · exact hstarts e' hm
        | stop => simp [devStep] at hrun
        | release => simp [devStep] at hrun
        | disconnect => simp [devStep] at hrun
      | released => cases e <;> simp [devStep] at hrun
      | disconnected => cases e <;> simp [devStep] at hrun

/-- C9: For every media device, startRunning transitions the device
from Idle to Running and fails with InvalidOperation, leaving the
device state unchanged, when the device is already running;
stopRunning transitions the device from Running back to Idle; so the
running flag reported by isRunning is true exactly after a successful
startRunning that has not been followed by stopRunning, release, or
disconnect. -/
theorem device_running_characterization (tr : List DevEvent) :
    devStep VKTDeviceState.idle DevEvent.start = (.ok, .running) ∧
    devStep VKTDeviceState.running DevEvent.start =
      (.invalidOperation, .running) ∧
    devStep VKTDeviceState.running DevEvent.stop = (.ok, .idle) ∧
    (VKTMediaDeviceIsRunning (devRunTrace VKTDeviceState.idle tr) = true ↔
      ∃ t1 t2, tr = t1 ++ DevEvent.start :: t2 ∧
        devRunTrace VKTDeviceState.idle t1 = VKTDeviceState.idle ∧
        (devStep (devRunTrace VKTDeviceState.idle t1) DevEvent.start).1 =
          VKTStatus.ok ∧
        ∀ e ∈ t2, e ≠ DevEvent.stop ∧ e ≠ DevEvent.release ∧
          e ≠ DevEvent.disconnect) := by
  refine ⟨rfl, rfl, rfl, ?_, ?_⟩
  · intro h
    have hrun : devRunTrace VKTDeviceState.idle tr = VKTDeviceState.running := by
      cases htr : devRunTrace VKTDeviceState.idle tr <;>
        simp [VKTMediaDeviceIsRunning, htr] at h ⊢
    rcases devRunTrace_running_split _ tr hrun with
      ⟨t1, t2, heq, hidle, hstarts⟩ | ⟨habs, _⟩
    · refine ⟨t1, t2, heq, hidle, by rw [hidle]; rfl, fun e he => ?_⟩
      have := hstarts e he
      subst this
      exact ⟨by decide, by decide, by decide⟩
    · cases habs
  · rintro ⟨t1, t2, rfl, hidle, _, hne⟩
    have hstarts : ∀ e ∈ t2, e = DevEvent.start := by
      intro e he
      rcases hne e he with ⟨h1, h2, h3⟩
      cases e
      · rfl
      · exact absurd rfl h1
      · exact absurd rfl h2
      · exact absurd rfl h3
    have : devRunTrace VKTDeviceState.idle (t1 ++ DevEvent.start :: t2) =
        devRunTrace (devStep (devRunTrace VKTDeviceState.idle t1)
          DevEvent.start).2 t2 := by
      simp [devRunTrace, List.foldl_append]
    rw [this, hidle]
    have hr : (devStep VKTDeviceState.idle DevEvent.start).2 =
        VKTDeviceState.running := rfl
    rw [hr, devRunTrace_running_of_starts t2 hstarts]
    rfl

/-- Witness for `device_running_characterization`: after the concrete
trace consisting of one successful start the device reports running. -/
theorem device_running_characterization_witness :
    VKTMediaDeviceIsRunning
      (devRunTrace VKTDeviceState.idle [DevEvent.start]) = true :=
  (device_running_characterization [DevEvent.start]).2.2.2.mpr
    ⟨[], [], rfl, rfl, rfl, by simp⟩
